import Mathlib

/-!
Shallow embedding of the VALD ForceDecks sync serverless function
(src/api/vald-sync.js) and verification of its specified properties.

JavaScript values are modelled as follows: numbers are rationals,
strings are Lean strings, objects built by repeated key assignment are
association lists where the most recent assignment is first (lookup
finds the latest), and absent / undefined values are Option.
-/

namespace ValdSync

/-- One entry of a trial result array: limb, repeat index, the
definition code (definition?.result, none when the definition object or
its result field is absent), and the numeric value. -/
structure ResultEntry where
  limb : String
  rep : Nat
  definition : Option String
  value : Rat
deriving DecidableEq

/-- A JavaScript object with numeric values, as built by key assignment:
most recent assignment first. -/
abbrev Obj := List (String × Rat)

/-- Property read o[k]: the most recent assignment to k. -/
def objGet (o : Obj) (k : String) : Option Rat := o.lookup k

/-- CMJ_MAP from the source: VALD key to portal key. -/
def CMJ_MAP : List (String × String) :=
  [("JUMP_HEIGHT_INCHES", "jumpHeight"),
   ("RSI_MODIFIED", "rsiMod"),
   ("BODYMASS_RELATIVE_TAKEOFF_POWER", "peakPowerBM"),
   ("ECCENTRIC_BRAKING_RFD", "eccBrakingRFD"),
   ("BODY_WEIGHT_LBS", "bodyweightLbs"),
   ("COUNTERMOVEMENT_DEPTH", "depth"),
   ("CONCENTRIC_IMPULSE", "conImpulse"),
   ("ECCENTRIC_BRAKING_IMPULSE", "eccBrakingImpulse"),
   ("PEAK_CONCENTRIC_FORCE", "conPeakForce"),
   ("CONCENTRIC_RFD", "conRFD")]

/-- HOP_MAP from the source. -/
def HOP_MAP : List (String × String) :=
  [("HOP_BEST_RSI", "rsi"),
   ("HOP_BEST_FLIGHT_TIME", "flightTime"),
   ("HOP_BEST_CONTACT_TIME", "contactTime"),
   ("BODY_WEIGHT_LBS", "bodyweightLbs")]

/-- ASYM_KEYS from the source. -/
def ASYM_KEYS : List String :=
  ["CONCENTRIC_IMPULSE", "ECCENTRIC_BRAKING_IMPULSE", "PEAK_CONCENTRIC_FORCE"]

/-- The set of definition codes present in a result array:
new Set(results.map(r => r.definition?.result)), restricted to the
defined codes (the undefined element of the set is never queried). -/
def resultCodes (results : List ResultEntry) : List String :=
  results.filterMap (·.definition)

/-- getTestType from the source: hop if HOP_BEST_RSI is present, else
cmj if RSI_MODIFIED or JUMP_HEIGHT_INCHES is present, else unknown. -/
def getTestType (results : List ResultEntry) : String :=
  if "HOP_BEST_RSI" ∈ resultCodes results then "hop"
  else if "RSI_MODIFIED" ∈ resultCodes results ∨ "JUMP_HEIGHT_INCHES" ∈ resultCodes results
    then "cmj"
  else "unknown"

/-- The per-entry condition of the extract loop:
r.limb === "Trial" && r.repeat === 0 && r.definition && map[r.definition.result],
specialised to the entries whose mapped portal key is k. -/
def isMatch (map : List (String × String)) (k : String) (r : ResultEntry) : Bool :=
  r.limb = "Trial" && r.rep = 0 &&
    (match r.definition with
     | some code => map.lookup code = some k
     | none => false)

/-- One step of the extract forEach: assign out[map[code]] = r.value
when the entry qualifies. -/
def extractStep (map : List (String × String)) (out : Obj) (r : ResultEntry) : Obj :=
  match r.definition with
  | some code =>
    if r.limb = "Trial" && r.rep = 0 then
      match map.lookup code with
      | some k => (k, r.value) :: out
      | none => out
    else out
  | none => out

/-- The extract forEach loop before the bodyweight conversion. -/
def extractRaw (results : List ResultEntry) (map : List (String × String)) : Obj :=
  results.foldl (extractStep map) []

/-- 2.20462, the kg to lbs factor from the source. -/
def KG_TO_LBS : Rat := 220462 / 100000

/-- +(x).toFixed(1): round to one decimal place. ECMAScript toFixed
picks the integer n closest to q * 10, the larger one on ties, which is
the floor of q * 10 + 1/2. -/
def toFixed1 (q : Rat) : Rat := ((Rat.floor (q * 10 + 1 / 2) : Int) : Rat) / 10

/-- extract from the source: the forEach loop, then the bodyweight unit
conversion out.bodyweightLbs = +(out.bodyweightLbs * 2.20462).toFixed(1)
applied when the field is present. -/
def extract (results : List ResultEntry) (map : List (String × String)) : Obj :=
  let out := extractRaw results map
  match objGet out "bodyweightLbs" with
  | some w => ("bodyweightLbs", toFixed1 (w * KG_TO_LBS)) :: out
  | none => out

/-- isSquatJump from the source: depth is zero or absent. -/
def isSquatJump (m : Obj) : Bool :=
  match objGet m "depth" with
  | none => true
  | some v => v = 0

/-- The last entry of the result array that assigns to portal key k in
the extract loop (later assignments overwrite earlier ones). -/
def lastMatch (results : List ResultEntry) (map : List (String × String))
    (k : String) : Option ResultEntry :=
  results.foldl (fun acc r => if isMatch map k r then some r else acc) none

theorem toFixed1_seventy : toFixed1 ((70 : Rat) * KG_TO_LBS) = 1543 / 10 := by
  have h : Rat.floor ((70 : Rat) * KG_TO_LBS * 10 + 1 / 2)
      = ⌊((70 : Rat) * KG_TO_LBS * 10 + 1 / 2)⌋ := rfl
  have h2 : ⌊((70 : Rat) * KG_TO_LBS * 10 + 1 / 2)⌋ = 1543 := by
    rw [Int.floor_eq_iff]
    norm_num [KG_TO_LBS]
  unfold toFixed1
  rw [h, h2]
  norm_num

theorem extractStep_lookup (map : List (String × String)) (k : String)
    (out : Obj) (r : ResultEntry) :
    objGet (extractStep map out r) k =
      if isMatch map k r then some r.value else objGet out k := by
  unfold extractStep isMatch objGet
  rcases r with ⟨limb, rep, defn, v⟩
  rcases defn with _ | code
  · simp
  · by_cases hl : limb = "Trial" <;> by_cases hr : rep = 0 <;>
      simp [hl, hr]
    rcases h : map.lookup code with _ | k2
    · simp
    · by_cases hk : k2 = k
      · subst hk; simp [List.lookup]
      · have hne : (k == k2) = false := beq_eq_false_iff_ne.mpr (Ne.symm hk)
        simp [List.lookup, hne, hk]

theorem extractRaw_lookup (results : List ResultEntry)
    (map : List (String × String)) (k : String) :
    objGet (extractRaw results map) k =
      match lastMatch results map k with
      | some r => some r.value
      | none => none := by
  suffices h : ∀ (out : Obj) (a : Option ResultEntry),
      (∀ r0, a = some r0 → objGet out k = some r0.value) →
      (a = none → objGet out k = none) →
      objGet (results.foldl (extractStep map) out) k =
        match results.foldl (fun acc r => if isMatch map k r then some r else acc) a with
        | some r => some r.value
        | none => none by
    exact h [] none (by simp) (by intro; rfl)
  induction results with
  | nil =>
    intro out a h1 h2
    rcases a with _ | r0
    · simpa using h2 rfl
    · simpa using h1 r0 rfl
  | cons r rest ih =>
    intro out a h1 h2
    simp only [List.foldl_cons]
    by_cases hm : isMatch map k r
    · rw [if_pos hm]
      exact ih (extractStep map out r) (some r)
        (by intro r0 hr0; cases hr0; simp [extractStep_lookup, hm])
        (by intro h; cases h)
    · rw [if_neg hm]
      refine ih (extractStep map out r) a ?_ ?_
      · intro r0 hr0
        rw [extractStep_lookup, if_neg hm]; exact h1 r0 hr0
      · intro h
        rw [extractStep_lookup, if_neg hm]; exact h2 h

/-- C7: classification returns hop whenever HOP_BEST_RSI is present
regardless of other codes; otherwise cmj whenever RSI_MODIFIED or
JUMP_HEIGHT_INCHES is present; otherwise unknown. -/
theorem getTestType_classification (results : List ResultEntry) :
    (getTestType results = "hop" ↔ "HOP_BEST_RSI" ∈ resultCodes results) ∧
    (getTestType results = "cmj" ↔
      "HOP_BEST_RSI" ∉ resultCodes results ∧
        ("RSI_MODIFIED" ∈ resultCodes results ∨ "JUMP_HEIGHT_INCHES" ∈ resultCodes results)) ∧
    (getTestType results = "unknown" ↔
      "HOP_BEST_RSI" ∉ resultCodes results ∧ "RSI_MODIFIED" ∉ resultCodes results ∧
        "JUMP_HEIGHT_INCHES" ∉ resultCodes results) := by
  unfold getTestType
  by_cases h1 : "HOP_BEST_RSI" ∈ resultCodes results <;>
    by_cases h2 : "RSI_MODIFIED" ∈ resultCodes results <;>
      by_cases h3 : "JUMP_HEIGHT_INCHES" ∈ resultCodes results <;>
        simp [h1, h2, h3]

/-- C8: extract emits map[code] = value exactly for the entries with
limb Trial, repeat 0 and a code in the field map (the last such entry
for a key wins, as JavaScript assignment overwrites); the bodyweight
field is converted by multiplying by 2.20462 and rounding to one
decimal; in particular a single BODY_WEIGHT_LBS entry of value 70
yields bodyweightLbs = 154.3. -/
theorem extract_emits_mapped_fields :
    (∀ (results : List ResultEntry) (map : List (String × String)) (k : String),
      k ≠ "bodyweightLbs" →
      objGet (extract results map) k = (lastMatch results map k).map (fun r => r.value)) ∧
    (∀ (results : List ResultEntry) (map : List (String × String)),
      objGet (extract results map) "bodyweightLbs" =
        (lastMatch results map "bodyweightLbs").map (fun r => toFixed1 (r.value * KG_TO_LBS))) ∧
    objGet (extract [⟨"Trial", 0, some "BODY_WEIGHT_LBS", 70⟩] CMJ_MAP) "bodyweightLbs"
      = some ((1543 : Rat) / 10) := by
  refine ⟨?_, ?_, by
    simp [extract, extractRaw, extractStep, objGet, List.lookup, CMJ_MAP, toFixed1_seventy]⟩
  · intro results map k hk
    have hne : (k == "bodyweightLbs") = false := beq_eq_false_iff_ne.mpr hk
    rcases hbw : objGet (extractRaw results map) "bodyweightLbs" with _ | w <;>
      simp only [extract, hbw]
    · rw [show objGet (extractRaw results map) k = _ from extractRaw_lookup results map k]
      cases lastMatch results map k <;> simp
    · show objGet (("bodyweightLbs", toFixed1 (w * KG_TO_LBS)) :: extractRaw results map) k = _
      simp only [objGet, List.lookup, hne]
      rw [show List.lookup k (extractRaw results map) = _ from extractRaw_lookup results map k]
      cases lastMatch results map k <;> simp
  · intro results map
    have h := extractRaw_lookup results map "bodyweightLbs"
    rcases hbw : objGet (extractRaw results map) "bodyweightLbs" with _ | w <;>
      simp only [extract, hbw] <;> rw [hbw] at h
    · revert h
      cases lastMatch results map "bodyweightLbs" <;> simp
    · show objGet (("bodyweightLbs", toFixed1 (w * KG_TO_LBS)) :: extractRaw results map)
        "bodyweightLbs" = _
      revert h
      cases lastMatch results map "bodyweightLbs" with
      | none => simp
      | some r =>
        intro h
        have hv : r.value = w := by simpa using h.symm
        simp [objGet, List.lookup, hv]

/-- Witness for C8 at concrete inputs. -/
theorem extract_emits_mapped_fields_witness :
    objGet (extract [⟨"Trial", 0, some "JUMP_HEIGHT_INCHES", 17⟩] CMJ_MAP) "jumpHeight" =
      some 17 ∧
    objGet (extract [⟨"Trial", 0, some "BODY_WEIGHT_LBS", 70⟩] HOP_MAP) "bodyweightLbs" =
      some ((1543 : Rat) / 10) := by
  constructor
  · rw [extract_emits_mapped_fields.1 _ CMJ_MAP "jumpHeight" (by decide)]
    simp [lastMatch, isMatch, CMJ_MAP, List.lookup]
  · rw [extract_emits_mapped_fields.2.1 _ HOP_MAP]
    simp [lastMatch, isMatch, HOP_MAP, List.lookup, toFixed1_seventy]

/-- JavaScript String.prototype.split on the single-character
separator slash, on the character list of the string. -/
def splitOnSlash : List Char → List (List Char)
  | [] => [[]]
  | c :: rest =>
    if c = '/' then [] :: splitOnSlash rest
    else
      match splitOnSlash rest with
      | [] => [[c]]
      | h :: t => (c :: h) :: t

/-- JavaScript Number() on a string of decimal digits. -/
def digitsVal (cs : List Char) : Int :=
  cs.foldl (fun n c => n * 10 + ((c.toNat : Int) - 48)) 0

/-- JavaScript x || y on numbers: 0 is falsy. -/
def jsOr (x y : Int) : Int := if x = 0 then y else x

/-- A record pushed into a per-profile collection: the formatted date
and the extracted metric fields. -/
structure SyncRec where
  date : String
  metrics : Obj
deriving DecidableEq

/-- [am, ad, ay] = rec.date.split slash then map Number. -/
def dateParts (r : SyncRec) : List Int :=
  (splitOnSlash r.date.data).map digitsVal

/-- dateCmp from the source: (ay - by) || (am - bm) || (ad - bd) on the
split MM/DD/YYYY date fields. -/
def dateCmp (a b : SyncRec) : Int :=
  let pa := dateParts a
  let pb := dateParts b
  jsOr (pa.getD 2 0 - pb.getD 2 0) (jsOr (pa.getD 0 0 - pb.getD 0 0) (pa.getD 1 0 - pb.getD 1 0))

/-- C9: on records whose date fields parse as MM/DD/YYYY, dateCmp is
negative exactly when the first date is calendar-earlier, that is,
lexicographically earlier on (year, month, day), and zero exactly on
equal dates; so sorting with dateCmp reproduces chronological order
across month and year boundaries. -/
theorem dateCmp_chronological (a b : SyncRec) (am ad ay bm bd by_ : Int)
    (ha : dateParts a = [am, ad, ay]) (hb : dateParts b = [bm, bd, by_]) :
    (dateCmp a b < 0 ↔
      (ay < by_ ∨ (ay = by_ ∧ (am < bm ∨ (am = bm ∧ ad < bd))))) ∧
    (dateCmp a b = 0 ↔ (ay = by_ ∧ am = bm ∧ ad = bd)) := by
  simp only [dateCmp, ha, hb, jsOr, List.getD_cons_zero, List.getD_cons_succ]
  constructor <;> split_ifs <;> omega

/-- Witness for C9: 12/31/2025 sorts before 01/02/2026. -/
theorem dateCmp_chronological_witness :
    dateCmp ⟨"12/31/2025", []⟩ ⟨"01/02/2026", []⟩ < 0 :=
  (dateCmp_chronological ⟨"12/31/2025", []⟩ ⟨"01/02/2026", []⟩
    12 31 2025 1 2 2026 (by decide) (by decide)).1.mpr (Or.inl (by decide))

/-- An HTTP response as seen by apiFetch: status code and body text. -/
structure HttpResponse where
  status : Nat
  body : String
deriving DecidableEq

/-- r.ok from the fetch API: status in the 2xx range. -/
def jsResponseOk (r : HttpResponse) : Bool := 200 ≤ r.status && r.status ≤ 299

/-- The body of apiFetch after the fetch returns: 204 yields null,
any other non-2xx status throws API status: url and body text,
a 2xx response yields its JSON body. -/
def apiFetchResult (url : String) (r : HttpResponse) : Except String (Option String) :=
  if r.status = 204 then .ok none
  else if jsResponseOk r then .ok (some r.body)
  else .error ("API " ++ toString r.status ++ ": " ++ url ++ " — " ++ r.body)

/-- apiFetch over an oracle giving the response of the n-th fetch the
call would issue. The source body performs exactly one fetch — there is
no retry loop or backoff — so the result is read from response 0 and
the second component, the number of fetches issued, is 1. -/
def apiFetch (url : String) (responses : Nat → HttpResponse) :
    Except String (Option String) × Nat :=
  (apiFetchResult url (responses 0), 1)

/-- A fetch history answering 429 first and 200 with body payload next. -/
def respAfterRateLimit : Nat → HttpResponse :=
  fun n => if n = 0 then ⟨429, "rate limited"⟩ else ⟨200, "payload"⟩

/-- Counterexample to C1: the claim predicts that a 429 followed by an
available 200 yields the 200 body after one retry (two fetches); the
code issues a single fetch and throws on the 429. -/
theorem apiFetch_429_counterexample :
    apiFetch "u" respAfterRateLimit = (.error "API 429: u — rate limited", 1) ∧
    apiFetch "u" respAfterRateLimit ≠ (.ok (some "payload"), 2) := by
  constructor
  · rfl
  · intro h
    have h2 := congrArg (fun p => p.2) h
    simp [apiFetch] at h2

/-- C1 as amended: apiFetch never retries. On a 429 response it issues
exactly one fetch and propagates the error carrying the status code and
the URL; the fixed 6-second backoff and single retry do not exist. -/
theorem apiFetch_429_no_retry (url : String) (responses : Nat → HttpResponse)
    (h : (responses 0).status = 429) :
    apiFetch url responses =
      (.error ("API 429: " ++ url ++ " — " ++ (responses 0).body), 1) := by
  unfold apiFetch apiFetchResult jsResponseOk
  rw [h]
  rfl

/-- Witness for C1 as amended at the concrete 429-then-200 history. -/
theorem apiFetch_429_no_retry_witness :
    apiFetch "u" respAfterRateLimit =
      (.error ("API 429: " ++ "u" ++ " — " ++ (respAfterRateLimit 0).body), 1) :=
  apiFetch_429_no_retry "u" respAfterRateLimit (by decide)

/-- BATCH_SIZE from the source: parallel requests per batch. -/
def BATCH_SIZE : Nat := 15

/-- When the fetch inside one apiFetch call is issued, as a function of
the time the call is made: the source awaits no timer between entry and
fetch (there is no pacing wait), so the fetch issues at the invocation
time itself. -/
def apiFetchIssueTime (invokedAt : Nat) : Nat := invokedAt

/-- Issue times of the outbound calls of one full-sync batch:
Promise.allSettled eagerly maps getTrials over the whole batch, so all
BATCH_SIZE underlying fetches are invoked at the same tick. -/
def batchIssueTimes (invokedAt : Nat) : List Nat :=
  List.replicate BATCH_SIZE (apiFetchIssueTime invokedAt)

/-- Counterexample to C2: two consecutive outbound calls of a batch
issued at tick 0 carry the same timestamp, a gap of 0 ms, not the
claimed minimum of 300 ms. -/
theorem pacing_counterexample :
    (batchIssueTimes 0).getD 0 999 = 0 ∧ (batchIssueTimes 0).getD 1 999 = 0 ∧
      (batchIssueTimes 0).getD 1 999 - (batchIssueTimes 0).getD 0 999 < 300 := by
  refine ⟨rfl, rfl, by decide⟩

/-- C2 as amended: the fetching layer enforces no minimum inter-call
gap — apiFetch inserts no delay before its fetch, and a full-sync batch
issues all fifteen calls at one instant. -/
theorem pacing_no_minimum_gap (t : Nat) :
    apiFetchIssueTime t = t ∧
    (batchIssueTimes t).length = BATCH_SIZE ∧
    (batchIssueTimes t).all (fun x => x = t) = true := by
  refine ⟨rfl, by simp [batchIssueTimes], ?_⟩
  simp [batchIssueTimes, List.all_eq_true, apiFetchIssueTime]

/-- The primary auth endpoint. -/
def AUTH_URL : String := "https://security.valdperformance.com/connect/token"

/-- The legacy fallback auth endpoint. -/
def AUTH_URL_OLD : String := "https://auth.prd.vald.com/oauth/token"

/-- The process-wide token cache: accessToken and absolute expiry in
milliseconds. -/
structure TokenCache where
  accessToken : Option String
  expiresAt : Int
deriving DecidableEq

/-- The environment variables getToken reads. -/
structure Env where
  VALD_CLIENT_ID : Option String
  VALD_CLIENT_SECRET : Option String
deriving DecidableEq

/-- JavaScript truthiness of a possibly absent string: undefined and
the empty string are falsy. -/
def optStrTruthy (o : Option String) : Bool :=
  match o with
  | none => false
  | some s => s ≠ ""

/-- Outcome of one POST to an auth endpoint: the fetch or JSON parse
threw, the response was not ok, or it carried a token with an optional
expires_in seconds field. -/
inductive AuthOutcome where
  | netError (msg : String)
  | httpError (status : Nat) (body : String)
  | success (token : String) (expiresIn : Option Int)
deriving DecidableEq

/-- d.expires_in || 3600: an absent or zero expires_in falls back to
3600 seconds. -/
def jsNumOr (x : Option Int) (dflt : Int) : Int :=
  match x with
  | some v => if v = 0 then dflt else v
  | none => dflt

/-- The for loop of getToken over the candidate auth endpoints: a
network error or a non-ok response continues to the next URL; a success
writes the token cache and returns the token; an exhausted list throws.
The third component lists the endpoints contacted, in order. -/
def authLoop (oracle : String → AuthOutcome) (now : Int) (cache : TokenCache) :
    List String → Except String String × TokenCache × List String
  | [] => (.error "Authentication failed on all endpoints", cache, [])
  | url :: rest =>
    match oracle url with
    | .success tok exp =>
      (.ok tok, ⟨some tok, now + jsNumOr exp 3600 * 1000⟩, [url])
    | _ =>
      let r := authLoop oracle now cache rest
      (r.1, r.2.1, url :: r.2.2)

/-- getToken from the source: return the cached token when it is truthy
and expires more than 60 seconds from now; then check the client id and
secret before any network call; then try the primary and the legacy
endpoint in order. Returns the call result, the cache afterwards, and
the list of auth endpoints contacted. -/
def getToken (cache : TokenCache) (env : Env) (now : Int)
    (oracle : String → AuthOutcome) :
    Except String String × TokenCache × List String :=
  if optStrTruthy cache.accessToken && decide (cache.expiresAt > now + 60000) then
    ((cache.accessToken.map Except.ok).getD (.error ""), cache, [])
  else if !(optStrTruthy env.VALD_CLIENT_ID && optStrTruthy env.VALD_CLIENT_SECRET) then
    (.error "Missing VALD_CLIENT_ID or VALD_CLIENT_SECRET environment variables", cache, [])
  else
    authLoop oracle now cache [AUTH_URL, AUTH_URL_OLD]

/-- C3: a cached token whose expiry lies more than 60 seconds in the
future is returned with zero network calls; after expiry, a refresh
whose primary exchange succeeds issues exactly one auth request, to the
primary endpoint; absent client id or secret fails with the
configuration error before any network call. -/
theorem getToken_cache_and_config :
    (∀ (cache : TokenCache) (env : Env) (now : Int) (oracle : String → AuthOutcome)
      (tok : String), cache.accessToken = some tok → tok ≠ "" →
      cache.expiresAt > now + 60000 →
      getToken cache env now oracle = (.ok tok, cache, [])) ∧
    (∀ (cache : TokenCache) (env : Env) (now : Int) (oracle : String → AuthOutcome)
      (tok : String) (exp : Option Int),
      (optStrTruthy cache.accessToken && decide (cache.expiresAt > now + 60000)) = false →
      optStrTruthy env.VALD_CLIENT_ID → optStrTruthy env.VALD_CLIENT_SECRET →
      oracle AUTH_URL = .success tok exp →
      getToken cache env now oracle =
        (.ok tok, ⟨some tok, now + jsNumOr exp 3600 * 1000⟩, [AUTH_URL])) ∧
    (∀ (cache : TokenCache) (env : Env) (now : Int) (oracle : String → AuthOutcome),
      (optStrTruthy cache.accessToken && decide (cache.expiresAt > now + 60000)) = false →
      (optStrTruthy env.VALD_CLIENT_ID && optStrTruthy env.VALD_CLIENT_SECRET) = false →
      getToken cache env now oracle =
        (.error "Missing VALD_CLIENT_ID or VALD_CLIENT_SECRET environment variables",
          cache, [])) := by
  refine ⟨?_, ?_, ?_⟩
  · intro cache env now oracle tok htok hne hexp
    unfold getToken
    rw [if_pos]
    · simp [htok]
    · simp [optStrTruthy, htok, hne, hexp]
  · intro cache env now oracle tok exp hmiss hcid hsec hora
    unfold getToken
    rw [if_neg (by simp [hmiss]), if_neg (by simp [hcid, hsec])]
    unfold authLoop
    rw [hora]
  · intro cache env now oracle hmiss hcfg
    unfold getToken
    rw [if_neg (by simp [hmiss]), if_pos (by simp [hcfg])]

/-- An expired empty cache. -/
def coldCache : TokenCache := ⟨none, 0⟩

/-- An environment carrying both secrets. -/
def fullEnv : Env := ⟨some "id", some "secret"⟩

/-- An oracle whose primary endpoint succeeds. -/
def primaryOkOracle : String → AuthOutcome :=
  fun url => if url = AUTH_URL then .success "tok1" (some 7200) else .netError "down"

/-- An environment missing the secret. -/
def noSecretEnv : Env := ⟨some "id", none⟩

/-- Witness for C3 at concrete inputs. -/
theorem getToken_cache_and_config_witness :
    getToken ⟨some "cached", 1000000⟩ fullEnv 0 primaryOkOracle =
      (.ok "cached", ⟨some "cached", 1000000⟩, []) ∧
    getToken coldCache fullEnv 0 primaryOkOracle =
      (.ok "tok1", ⟨some "tok1", 7200000⟩, [AUTH_URL]) ∧
    getToken coldCache noSecretEnv 0 primaryOkOracle =
      (.error "Missing VALD_CLIENT_ID or VALD_CLIENT_SECRET environment variables",
        coldCache, []) :=
  ⟨getToken_cache_and_config.1 _ fullEnv 0 primaryOkOracle "cached" rfl (by decide)
      (by decide),
   getToken_cache_and_config.2.1 coldCache _ 0 _ "tok1" (some 7200) (by decide)
      (by decide) (by decide) (by decide),
   getToken_cache_and_config.2.2 coldCache noSecretEnv 0 primaryOkOracle (by decide)
      (by decide)⟩

/-- Whether an auth endpoint outcome takes the success branch of the
loop (an ok response whose JSON parse succeeded). -/
def isAuthSuccess (o : AuthOutcome) : Bool :=
  match o with
  | .success _ _ => true
  | _ => false

/-- An oracle failing everywhere with one error text. -/
def failOracleA : String → AuthOutcome := fun _ => .netError "XERRA"

/-- An oracle failing everywhere with another error text. -/
def failOracleB : String → AuthOutcome := fun _ => .netError "XERRB"

/-- Counterexample to C4: when both endpoints fail, the thrown
AuthenticationError is the fixed string Authentication failed on all
endpoints — it is identical for two histories with different
per-endpoint error texts and contains no character of either text, so
it does not aggregate the per-endpoint error text. -/
theorem getToken_no_error_aggregation_counterexample :
    (getToken coldCache fullEnv 0 failOracleA).1 =
      .error "Authentication failed on all endpoints" ∧
    (getToken coldCache fullEnv 0 failOracleB).1 =
      (getToken coldCache fullEnv 0 failOracleA).1 ∧
    ('X' ∈ "Authentication failed on all endpoints".data) = False := by
  refine ⟨rfl, rfl, by simp⟩

/-- C4 as amended: a refresh performs the exchange against the primary
endpoint; the legacy endpoint is contacted only when the primary fails;
an AuthenticationError is thrown only when both fail, and it carries the
fixed message Authentication failed on all endpoints, discarding the
per-endpoint error text. -/
theorem getToken_fallback_order (cache : TokenCache) (env : Env) (now : Int)
    (oracle : String → AuthOutcome)
    (hmiss : (optStrTruthy cache.accessToken && decide (cache.expiresAt > now + 60000)) = false)
    (hcid : optStrTruthy env.VALD_CLIENT_ID)
    (hsec : optStrTruthy env.VALD_CLIENT_SECRET) :
    (∀ tok exp, oracle AUTH_URL = .success tok exp →
      (getToken cache env now oracle).2.2 = [AUTH_URL]) ∧
    (isAuthSuccess (oracle AUTH_URL) = false →
      ∀ tok exp, oracle AUTH_URL_OLD = .success tok exp →
      getToken cache env now oracle =
        (.ok tok, ⟨some tok, now + jsNumOr exp 3600 * 1000⟩, [AUTH_URL, AUTH_URL_OLD])) ∧
    (isAuthSuccess (oracle AUTH_URL) = false →
      isAuthSuccess (oracle AUTH_URL_OLD) = false →
      getToken cache env now oracle =
        (.error "Authentication failed on all endpoints", cache,
          [AUTH_URL, AUTH_URL_OLD])) := by
  have hopen : getToken cache env now oracle =
      authLoop oracle now cache [AUTH_URL, AUTH_URL_OLD] := by
    unfold getToken
    rw [if_neg (by simp [hmiss]), if_neg (by simp [hcid, hsec])]
  refine ⟨?_, ?_, ?_⟩
  · intro tok exp hora
    rw [hopen]
    unfold authLoop
    rw [hora]
  · intro hfail tok exp hold
    rw [hopen]
    cases h1 : oracle AUTH_URL with
    | success t e =>
      rw [h1] at hfail
      simp [isAuthSuccess] at hfail
    | netError m =>
      simp [authLoop, h1, hold]
    | httpError s b =>
      simp [authLoop, h1, hold]
  · intro hfail1 hfail2
    rw [hopen]
    cases h1 : oracle AUTH_URL with
    | success t e =>
      rw [h1] at hfail1
      simp [isAuthSuccess] at hfail1
    | netError m =>
      cases h2 : oracle AUTH_URL_OLD with
      | success t2 e2 =>
        rw [h2] at hfail2
        simp [isAuthSuccess] at hfail2
      | netError m2 =>
        simp [authLoop, h1, h2]
      | httpError s2 b2 =>
        simp [authLoop, h1, h2]
    | httpError s b =>
      cases h2 : oracle AUTH_URL_OLD with
      | success t2 e2 =>
        rw [h2] at hfail2
        simp [isAuthSuccess] at hfail2
      | netError m2 =>
        simp [authLoop, h1, h2]
      | httpError s2 b2 =>
        simp [authLoop, h1, h2]

/-- An oracle whose primary endpoint fails and whose legacy endpoint
succeeds. -/
def legacyOkOracle : String → AuthOutcome :=
  fun url => if url = AUTH_URL_OLD then .success "tok2" none else .httpError 500 "err"

/-- Witness for C4 as amended at concrete inputs. -/
theorem getToken_fallback_order_witness :
    (getToken coldCache fullEnv 0 primaryOkOracle).2.2 = [AUTH_URL] ∧
    getToken coldCache fullEnv 0 legacyOkOracle =
      (.ok "tok2", ⟨some "tok2", 3600000⟩, [AUTH_URL, AUTH_URL_OLD]) ∧
    getToken coldCache fullEnv 0 failOracleA =
      (.error "Authentication failed on all endpoints", coldCache,
        [AUTH_URL, AUTH_URL_OLD]) :=
  ⟨(getToken_fallback_order coldCache fullEnv 0 primaryOkOracle (by decide) (by decide)
      (by decide)).1 "tok1" (some 7200) (by decide),
   (getToken_fallback_order coldCache fullEnv 0 legacyOkOracle (by decide) (by decide)
      (by decide)).2.1 (by decide) "tok2" none (by decide),
   (getToken_fallback_order coldCache fullEnv 0 failOracleA (by decide) (by decide)
      (by decide)).2.2 (by decide) (by decide)⟩

/-- A test reference as used by the handler: identifiers, recorded
timestamp and offset, and the pagination cursor field. -/
structure TestRec where
  testId : String
  profileId : String
  recordedDateUtc : String
  recordedDateOffset : Int
  modifiedDateUtc : String
deriving DecidableEq

/-- The handler deadline in milliseconds from request start:
Date.now() - startTime > 52000 breaks the batch loop. -/
def deadlineMs : Nat := 52000

/-- The body of the getAllTests for loop over a page oracle keyed by
the modifiedFromUtc cursor; the oracle returns the record list after
the response shape sniff d?.tests || d. The fuel is the remaining iteration budget
of for (let i = 0; i < 100; i++). Returns the concatenated records and
the number of page fetches performed. An empty page breaks before
pushing; a short page (< 50 records) pushes, then breaks; otherwise the
cursor advances to the last record's modifiedDateUtc. -/
def getAllTestsLoop (pages : String → List TestRec) :
    Nat → String → List TestRec → List TestRec × Nat
  | 0, _, acc => (acc, 0)
  | n + 1, cursor, acc =>
    let tests := pages cursor
    if tests.length = 0 then (acc, 1)
    else if tests.length < 50 then (acc ++ tests, 1)
    else
      match tests.getLast? with
      | some last =>
        let r := getAllTestsLoop pages n last.modifiedDateUtc (acc ++ tests)
        (r.1, r.2 + 1)
      | none => (acc ++ tests, 1)

/-- getAllTests from the source: the loop with the 100 iteration cap,
started at the fromUtc cursor with an empty accumulator. -/
def getAllTests (pages : String → List TestRec) (fromUtc : String) :
    List TestRec × Nat :=
  getAllTestsLoop pages 100 fromUtc []

/-- A page oracle that always returns a full page of 50 records keyed
to the cursor next, so the cursor loops forever. -/
def loopingPages : String → List TestRec :=
  fun _ => List.replicate 50 ⟨"t", "p", "2025-06-01T00:00:00Z", 0, "next"⟩

theorem getAllTestsLoop_fetch_bound (pages : String → List TestRec) :
    ∀ (fuel : Nat) (cursor : String) (acc : List TestRec),
      (getAllTestsLoop pages fuel cursor acc).2 ≤ fuel := by
  intro fuel
  induction fuel with
  | zero => intro cursor acc; simp [getAllTestsLoop]
  | succ n ih =>
    intro cursor acc
    unfold getAllTestsLoop
    by_cases h0 : (pages cursor).length = 0
    · simp [h0]
    · by_cases h50 : (pages cursor).length < 50
      · simp [h0, h50]
      · cases hl : (pages cursor).getLast? with
        | some last =>
          simp only [h0, h50, if_false, hl]
          have := ih last.modifiedDateUtc (acc ++ pages cursor)
          omega
        | none => simp [h0, h50, hl]

theorem getAllTestsLoop_full_pages (pages : String → List TestRec)
    (hfull : ∀ c, (pages c).length = 50) :
    ∀ (fuel : Nat) (cursor : String) (acc : List TestRec),
      (getAllTestsLoop pages fuel cursor acc).2 = fuel := by
  intro fuel
  induction fuel with
  | zero => intro cursor acc; simp [getAllTestsLoop]
  | succ n ih =>
    intro cursor acc
    unfold getAllTestsLoop
    have h0 : ¬((pages cursor).length = 0) := by rw [hfull]; omega
    have h50 : ¬((pages cursor).length < 50) := by rw [hfull]; omega
    cases hl : (pages cursor).getLast? with
    | some last =>
      simp only [h0, h50, if_false, hl]
      rw [ih last.modifiedDateUtc (acc ++ pages cursor)]
    | none =>
      have : pages cursor = [] := List.getLast?_eq_none_iff.mp hl
      rw [this] at h0
      simp at h0

/-- C5 as amended: the test-listing loop terminates exactly when a page
returns no records, when a page returns fewer than 50 records, or when
the 100-iteration cap is reached; it reads no clock, so when every page
is full it always runs to the cap — it never stops for the shared
wall-clock deadline. -/
theorem getAllTests_termination (pages : String → List TestRec) (fromUtc : String) :
    (getAllTests pages fromUtc).2 ≤ 100 ∧
    ((∀ c, (pages c).length = 50) → (getAllTests pages fromUtc).2 = 100) := by
  constructor
  · exact getAllTestsLoop_fetch_bound pages 100 fromUtc []
  · intro hfull
    exact getAllTestsLoop_full_pages pages hfull 100 fromUtc []

/-- Witness for C5 as amended at the looping page oracle. -/
theorem getAllTests_termination_witness :
    (getAllTests loopingPages "start").2 ≤ 100 ∧
    (getAllTests loopingPages "start").2 = 100 :=
  ⟨(getAllTests_termination loopingPages "start").1,
   (getAllTests_termination loopingPages "start").2 (fun _ => by simp [loopingPages])⟩

/-- Counterexample to C5: with full pages at every cursor the loop
performs all 100 fetches; timing the run at one second per page fetch,
the 52-second deadline passes before the 54th fetch, yet fetching
continues to the cap — the loop never checks the deadline. -/
theorem getAllTests_deadline_counterexample :
    (getAllTests loopingPages "start").2 = 100 ∧
    deadlineMs < 1000 * ((getAllTests loopingPages "start").2 - 1) := by
  have h : (getAllTests loopingPages "start").2 = 100 :=
    getAllTestsLoop_full_pages loopingPages (fun _ => by simp [loopingPages]) 100 "start" []
  refine ⟨h, ?_⟩
  rw [h]
  decide

/-- The branches of the handler, dispatched on the test query
parameter. -/
inductive SyncMode where
  | auth | tenant | profiles | explore | tests | trials | fullSync
deriving DecidableEq

/-- The dispatch of the handler on the test query parameter: the six
recognized diagnostic values take their branch; anything else,
including an absent parameter, falls through to the full sync. -/
def dispatch (test : Option String) : SyncMode :=
  match test with
  | some "auth" => .auth
  | some "tenant" => .tenant
  | some "profiles" => .profiles
  | some "explore" => .explore
  | some "tests" => .tests
  | some "trials" => .trials
  | _ => .fullSync

/-- The HTTP status of a handler response: every successful branch
returns res.status(200), and the single catch returns res.status(500);
no branch uses any other status. -/
def handlerStatus (success : Bool) : Nat := if success then 200 else 500

/-- The JSON error body of the catch branch: success false, the error
message, and a hint chosen by substring tests on the message. -/
structure ErrorBody where
  success : Bool
  error : String
  hint : String
deriving DecidableEq

/-- JavaScript String.prototype.includes. -/
def jsIncludes (s sub : String) : Bool :=
  s.data.tails.any (fun t => sub.data.isPrefixOf t)

/-- The error response constructed by the handler catch branch. -/
def mkErrorBody (msg : String) : ErrorBody :=
  ⟨false, msg,
    if jsIncludes msg "Missing VALD" then "Set env vars in Vercel"
    else if jsIncludes msg "Authentication" then "Check credentials"
    else "Check Vercel function logs"⟩

/-- Counterexample to C6: a request with no parameters is dispatched to
the full sync, not rejected; the handler statuses are 200 on success
and 500 on failure, and neither is the claimed 400 — the handler never
returns 400 for any request. -/
theorem handler_no_bad_request_counterexample :
    dispatch none = SyncMode.fullSync ∧
    dispatch (some "list") = SyncMode.fullSync ∧
    handlerStatus true = 200 ∧ handlerStatus false = 500 ∧
    handlerStatus true ≠ 400 ∧ handlerStatus false ≠ 400 := by
  refine ⟨rfl, rfl, rfl, rfl, by decide, by decide⟩

/-- C6 as amended: a request with no parameters or an unrecognized test
value falls through to the full-sync branch; every response status is
200 or 500 (never 400); and every error response body is success false
with the error message. -/
theorem handler_dispatch_and_statuses :
    (∀ t : Option String,
      t ≠ some "auth" → t ≠ some "tenant" → t ≠ some "profiles" →
      t ≠ some "explore" → t ≠ some "tests" → t ≠ some "trials" →
      dispatch t = SyncMode.fullSync) ∧
    (∀ s : Bool, handlerStatus s = 200 ∨ handlerStatus s = 500) ∧
    (∀ msg : String, (mkErrorBody msg).success = false ∧ (mkErrorBody msg).error = msg) := by
  refine ⟨?_, ?_, ?_⟩
  · intro t h1 h2 h3 h4 h5 h6
    unfold dispatch
    split
    · exact absurd rfl h1
    · exact absurd rfl h2
    · exact absurd rfl h3
    · exact absurd rfl h4
    · exact absurd rfl h5
    · exact absurd rfl h6
    · rfl
  · intro s
    cases s
    · exact Or.inr rfl
    · exact Or.inl rfl
  · intro msg
    exact ⟨rfl, rfl⟩

/-- Witness for C6 as amended at concrete inputs. -/
theorem handler_dispatch_and_statuses_witness :
    dispatch (some "sync-everything") = SyncMode.fullSync ∧
    (handlerStatus false = 200 ∨ handlerStatus false = 500) ∧
    (mkErrorBody "No tenants found").success = false ∧
    (mkErrorBody "No tenants found").error = "No tenants found" :=
  ⟨handler_dispatch_and_statuses.1 (some "sync-everything") (by decide) (by decide)
      (by decide) (by decide) (by decide) (by decide),
   handler_dispatch_and_statuses.2.1 false,
   (handler_dispatch_and_statuses.2.2 "No tenants found").1,
   (handler_dispatch_and_statuses.2.2 "No tenants found").2⟩

/-- One trial as consumed by the handler: only its results array is
read. -/
structure Trial where
  results : List ResultEntry
deriving DecidableEq

/-- getTrials from the source: the apiFetch outcome for the trials
endpoint is null-coalesced to an empty array, and any thrown error is
caught and replaced by an empty array, so getTrials never rejects. -/
def getTrials (r : Except String (Option (List Trial))) : List Trial :=
  match r with
  | .ok (some ts) => ts
  | .ok none => []
  | .error _ => []

/-- A settled promise outcome, as delivered by Promise.allSettled. -/
inductive Settled (α : Type) where
  | fulfilled (value : α)
  | rejected (reason : String)
deriving DecidableEq

/-- The short name for an asymmetry key. -/
def asymShort (key : String) : String :=
  if key = "CONCENTRIC_IMPULSE" then "conImpulse"
  else if key = "ECCENTRIC_BRAKING_IMPULSE" then "eccBrakingImpulse"
  else "conPeakForce"

/-- One step of the extractAsym forEach. -/
def extractAsymStep (out : Obj) (r : ResultEntry) : Obj :=
  if r.rep ≠ 0 then out
  else
    match r.definition with
    | none => out
    | some key =>
      if key ∉ ASYM_KEYS then out
      else if r.limb = "Left" then (asymShort key ++ "L", r.value) :: out
      else if r.limb = "Right" then (asymShort key ++ "R", r.value) :: out
      else out

/-- extractAsym from the source. -/
def extractAsym (results : List ResultEntry) : Obj :=
  results.foldl extractAsymStep []

/-- The accumulator of the full-sync batch loop: the per-profile cmj
and hop collections and the processed, errors and skipped tallies. -/
structure SyncState where
  cmj : List (String × List SyncRec)
  hop : List (String × List SyncRec)
  processed : Nat
  errors : Nat
  skipped : Nat
deriving DecidableEq

/-- The loop accumulator before the first batch. -/
def initState : SyncState := ⟨[], [], 0, 0, 0⟩

/-- if (!coll[pid]) coll[pid] = []; coll[pid].push(rec). -/
def mapPush (m : List (String × List SyncRec)) (k : String) (v : SyncRec) :
    List (String × List SyncRec) :=
  match m with
  | [] => [(k, [v])]
  | (k2, vs) :: rest =>
    if k2 = k then (k2, vs ++ [v]) :: rest else (k2, vs) :: mapPush rest k v

/-- The body of for (const result of results) in the full-sync loop,
over one settled outcome. A rejected outcome or a fulfilled one with an
empty trials array increments errors and continues; otherwise the first
trial is classified, extracted (date formatted by fmt, the embedding of
fmtDate), squat jumps are skipped (still counted processed), and the
record is pushed per profile; every non-error test increments
processed. -/
def processSettled (fmt : String → Int → String) (st : SyncState)
    (res : Settled (TestRec × List Trial)) : SyncState :=
  match res with
  | .rejected _ => { st with errors := st.errors + 1 }
  | .fulfilled (t, trials) =>
    match trials with
    | [] => { st with errors := st.errors + 1 }
    | trial :: _ =>
      let type := getTestType trial.results
      let date := fmt t.recordedDateUtc t.recordedDateOffset
      if type = "cmj" then
        let m := extract trial.results CMJ_MAP
        if isSquatJump m then
          { st with skipped := st.skipped + 1, processed := st.processed + 1 }
        else
          let a := extractAsym trial.results
          { st with cmj := mapPush st.cmj t.profileId ⟨date, a ++ m⟩,
                    processed := st.processed + 1 }
      else if type = "hop" then
        let m := extract trial.results HOP_MAP
        { st with hop := mapPush st.hop t.profileId ⟨date, m⟩,
                  processed := st.processed + 1 }
      else { st with processed := st.processed + 1 }

/-- The full-sync loop over all settled outcomes, in the runs where the
cooperative deadline break never fires (the batch partition of size 15
does not change the fold). -/
def syncRun (fmt : String → Int → String)
    (results : List (Settled (TestRec × List Trial))) : SyncState :=
  results.foldl (processSettled fmt) initState

/-- complete from the source response: timedOut is
processed < tests.length and complete is its negation. -/
def completeFlag (processed totalTests : Nat) : Bool :=
  ! decide (processed < totalTests)

theorem processSettled_counts (fmt : String → Int → String) (st : SyncState)
    (res : Settled (TestRec × List Trial)) :
    (processSettled fmt st res).processed + (processSettled fmt st res).errors
        = st.processed + st.errors + 1 ∧
      st.errors ≤ (processSettled fmt st res).errors := by
  cases res with
  | rejected msg =>
    simp [processSettled]
    omega
  | fulfilled v =>
    rcases v with ⟨t, trials⟩
    cases trials with
    | nil =>
      simp [processSettled]
      omega
    | cons trial rest =>
      simp only [processSettled]
      split_ifs <;> simp <;> omega

theorem syncFold_counts (fmt : String → Int → String) :
    ∀ (results : List (Settled (TestRec × List Trial))) (st : SyncState),
      (results.foldl (processSettled fmt) st).processed
          + (results.foldl (processSettled fmt) st).errors
        = st.processed + st.errors + results.length ∧
      st.errors ≤ (results.foldl (processSettled fmt) st).errors := by
  intro results
  induction results with
  | nil => intro st; simp
  | cons res rest ih =>
    intro st
    simp only [List.foldl_cons, List.length_cons]
    have h1 := processSettled_counts fmt st res
    have h2 := ih (processSettled fmt st res)
    exact ⟨by omega, by omega⟩

/-- C10: a test whose trial fetch settles fulfilled with an empty
trials array is tallied exactly like a rejected fetch — errors
increments, processed and skipped do not; getTrials turns every fetch
failure into an empty array, so this is the single path every per-test
failure takes; each settled outcome adds one to processed or errors, so
any such test leaves processed below totalTests and forces the complete
flag (processed not less than totalTests) to false. -/
theorem empty_trials_error_tally :
    (∀ (fmt : String → Int → String) (st : SyncState) (t : TestRec) (msg : String),
      processSettled fmt st (.fulfilled (t, ([] : List Trial)))
          = { st with errors := st.errors + 1 } ∧
      processSettled fmt st (.rejected msg) = { st with errors := st.errors + 1 }) ∧
    (∀ (msg : String), getTrials (.error msg) = []) ∧
    (∀ (fmt : String → Int → String) (results : List (Settled (TestRec × List Trial))),
      (syncRun fmt results).processed + (syncRun fmt results).errors = results.length) ∧
    (∀ (fmt : String → Int → String) (results : List (Settled (TestRec × List Trial)))
      (t : TestRec),
      Settled.fulfilled (t, ([] : List Trial)) ∈ results →
      completeFlag (syncRun fmt results).processed results.length = false) := by
  refine ⟨?_, fun msg => rfl, ?_, ?_⟩
  · intro fmt st t msg
    exact ⟨rfl, rfl⟩
  · intro fmt results
    have h := (syncFold_counts fmt results initState).1
    have hip : initState.processed = 0 := rfl
    have hie : initState.errors = 0 := rfl
    unfold syncRun
    omega
  · intro fmt results t hmem
    obtain ⟨s, u, rfl⟩ := List.append_of_mem hmem
    set A := s.foldl (processSettled fmt) initState with hA
    set B := processSettled fmt A (Settled.fulfilled (t, ([] : List Trial))) with hB
    have hfold : syncRun fmt (s ++ Settled.fulfilled (t, ([] : List Trial)) :: u)
        = u.foldl (processSettled fmt) B := by
      simp [syncRun, List.foldl_append, hA, hB]
    have hAcnt := (syncFold_counts fmt s initState).1
    rw [← hA] at hAcnt
    have hBerr : B.errors = A.errors + 1 := by
      rw [hB]
      simp [processSettled]
    have hBcnt := processSettled_counts fmt A (Settled.fulfilled (t, ([] : List Trial)))
    have hUcnt := (syncFold_counts fmt u B).1
    have hUerr := (syncFold_counts fmt u B).2
    have hip : initState.processed = 0 := rfl
    have hie : initState.errors = 0 := rfl
    rw [hfold]
    rw [← hB] at hBcnt
    have hlt : (List.foldl (processSettled fmt) B u).processed
        < (s ++ Settled.fulfilled (t, ([] : List Trial)) :: u).length := by
      simp only [List.length_append, List.length_cons]
      omega
    unfold completeFlag
    rw [decide_eq_true hlt]
    rfl

/-- A concrete test reference. -/
def sampleTest : TestRec := ⟨"t1", "p1", "2025-06-02T10:00:00Z", 0, "m1"⟩

/-- Witness for C10 at a concrete one-element run. -/
theorem empty_trials_error_tally_witness :
    processSettled (fun _ _ => "") initState
        (.fulfilled (sampleTest, ([] : List Trial)))
      = { initState with errors := initState.errors + 1 } ∧
    getTrials (.error "API 500: u — boom") = ([] : List Trial) ∧
    (syncRun (fun _ _ => "") [.fulfilled (sampleTest, ([] : List Trial))]).processed
        + (syncRun (fun _ _ => "") [.fulfilled (sampleTest, ([] : List Trial))]).errors
      = 1 ∧
    completeFlag (syncRun (fun _ _ => "")
        [.fulfilled (sampleTest, ([] : List Trial))]).processed 1 = false :=
  ⟨(empty_trials_error_tally.1 (fun _ _ => "") initState sampleTest "m").1,
   empty_trials_error_tally.2.1 "API 500: u — boom",
   empty_trials_error_tally.2.2.1 (fun _ _ => "")
     [.fulfilled (sampleTest, ([] : List Trial))],
   by
    have h := empty_trials_error_tally.2.2.2 (fun _ _ => "")
      [.fulfilled (sampleTest, ([] : List Trial))] sampleTest (by simp)
    simpa using h⟩

end ValdSync
